import Mathlib

/-!
Verification development for the Live Exercise Session Orchestrator of the
rehabilitation-exercise web client (src/src/pages/LiveSession.tsx, with the
near-duplicate revisions kept under src/unnamed/part_003).

The component is a single-threaded, event/timer-driven React component.  We
embed it as a labelled transition system over an explicit record of all of
its React state hooks, refs and externally visible effects (network requests
issued, save requests issued, onComplete invocations).  Events are the timer
ticks, network completions and user interactions that drive the component;
each event handler is translated line by line from the source into a pure
state-transformation function.

JavaScript closure semantics matter for fidelity in two places and are
modelled explicitly:

* the 500 ms sampling interval created in `startCamera` (LiveSession.tsx:261)
  invokes the `captureAndAnalyze` function object of the render in which
  `startCamera` ran; that closure captures the then-current values of the
  `analysisSide` and `showCompletionModal` state hooks.  Later renders create
  new function objects but do not change the closure held by the live
  interval.  The model therefore stores an `IntervalCtx` (the captured
  values) inside the interval, and ticks read the captured values, exactly
  as the running JavaScript does;
* `handleSideChange` (LiveSession.tsx:294-300) schedules
  `setTimeout(startCamera, 500)` from the render that was committed when the
  button was clicked, i.e. before the `setAnalysisSide(side)` update has
  produced a new render; the interval it creates consequently captures the
  pre-switch `analysisSide`.

Numbers: rep/set counters are natural numbers; accuracy scores, landmark
coordinates and visibilities are rationals (the code only compares and
copies them); timestamps (`Date.now()` milliseconds) are naturals.  The
angle-arc geometry of `drawLandmarks` uses `Math.atan2`, modelled over the
reals via `Complex.arg`.
-/

/-- The analyze-side selector of the UI state hook
`useState<'auto' | 'left' | 'right'>('auto')` (LiveSession.tsx:139). -/
inductive Side where
  | auto
  | left
  | right
deriving DecidableEq, Repr

/-- A resolved (non-auto) body side, as the analysis server returns it inside
`state.analysis_side` and as the client sends it in `previous_state`. -/
inductive SideLR where
  | left
  | right
deriving DecidableEq, Repr

/-- `'auto'` is sent as `null`; a concrete side is sent as itself
(LiveSession.tsx:216). -/
def sideToSent : Side → Option SideLR
  | Side.auto => none
  | Side.left => some SideLR.left
  | Side.right => some SideLR.right

/-- Lift a server-resolved side back into the UI selector type, as done by
`setAnalysisSide(data.state.analysis_side)` (LiveSession.tsx:230). -/
def sideOfLR : SideLR → Side
  | SideLR.left => Side.left
  | SideLR.right => Side.right

/-- Feedback category (interface FeedbackItem, LiveSession.tsx:23-26). -/
inductive FeedbackType where
  | correction
  | encouragement
  | warning
  | progress
deriving DecidableEq, Repr

/-- interface FeedbackItem (LiveSession.tsx:23-26). -/
structure FeedbackItem where
  type : FeedbackType
  message : String
deriving DecidableEq, Repr

/-- interface Landmark (LiveSession.tsx:27-31): a normalized keypoint with a
visibility confidence. -/
structure Landmark where
  x : ℚ
  y : ℚ
  visibility : ℚ
deriving DecidableEq, Repr

/-- interface Coordinate (LiveSession.tsx:32-35). -/
structure Coordinate where
  x : ℚ
  y : ℚ
deriving DecidableEq, Repr

/-- The optional angle block of DrawingData (LiveSession.tsx:38-43). -/
structure AngleData where
  angle : ℚ
  A : Coordinate
  B : Coordinate
  C : Coordinate
deriving DecidableEq, Repr

/-- interface DrawingData (LiveSession.tsx:36-44). -/
structure DrawingData where
  landmarks : List Landmark
  angleData : Option AngleData
deriving DecidableEq, Repr

/-- The mutable `sessionStateRef.current` payload (LiveSession.tsx:131).  The
server may include a resolved `analysis_side` in the state it returns; the
client overrides that field on every outgoing request. -/
structure SessionState where
  reps : Nat
  stage : String
  angle : ℚ
  last_rep_time : Nat
  analysis_side : Option SideLR
deriving DecidableEq, Repr

/-- `{ reps: 0, stage: 'down', angle: 0, last_rep_time: 0 }`, the fresh
session state used at mount, camera start, set reset and teardown
(LiveSession.tsx:131,248,260,278). -/
def initialSessionState : SessionState :=
  { reps := 0, stage := "down", angle := 0, last_rep_time := 0, analysis_side := none }

/-- interface Exercise (LiveSession.tsx:6-12). -/
structure Exercise where
  name : String
  description : String
  target_reps : Nat
  sets : Nat
  rest_seconds : Nat
deriving DecidableEq, Repr

/-- The authenticated user from `useAuth()`; `user?.id` is the only field the
session ever reads (LiveSession.tsx:127,191,197). -/
structure UserRec where
  id : String
deriving DecidableEq, Repr

/-- The immutable environment of one mounted LiveSession component: the
`exercise` prop and the auth context.  (The `plan` prop is destructured but
never used by the component.) -/
structure Config where
  exercise : Exercise
  user : Option UserRec
deriving DecidableEq, Repr

/-- A successful `/api/analyze_frame` response body (LiveSession.tsx:227-236):
reps, accuracy_score, feedback, drawing_landmarks, current_angle,
angle_coords {A,B,C} and the next server-authoritative state. -/
structure AnalyzeResp where
  reps : Nat
  accuracy_score : ℚ
  feedback : List FeedbackItem
  drawing_landmarks : List Landmark
  current_angle : ℚ
  angle_A : Coordinate
  angle_B : Coordinate
  angle_C : Coordinate
  state : SessionState
deriving DecidableEq, Repr

/-- The render-closure context captured by the live sampling interval: the
`analysisSide` and `showCompletionModal` values of the render whose
`startCamera` created the interval (see the file header). -/
structure IntervalCtx where
  side : Side
  modal : Bool
deriving DecidableEq, Repr

/-- An in-flight `/api/analyze_frame` request: the `previous_state` payload
that was sent (LiveSession.tsx:216,221) and the closure side under which its
continuation will run.  The code attaches no sequence number to a call —
that absence is what claims C1/C10 probe. -/
structure PendingCall where
  sentState : SessionState
  ctxSide : Side
deriving DecidableEq, Repr

/-- A `/api/save_session` POST body (LiveSession.tsx:197). -/
structure SaveReq where
  user_id : String
  exercise_name : String
  reps_completed : Nat
  accuracy_score : ℚ
deriving DecidableEq, Repr

/-- The complete observable state of one mounted LiveSession component:
every `useState` hook, the refs, plus ghost fields recording the externally
visible effects (pending analyze calls, issued-request count, save requests,
onComplete invocations, unmount). -/
structure OrchState where
  isActive : Bool
  reps : Nat
  feedback : List FeedbackItem
  accuracy : ℚ
  error : String
  drawingData : Option DrawingData
  analysisSide : Side
  setsCompleted : Nat
  showCompletionModal : Bool
  lastActivityTime : Nat
  sessionState : SessionState
  interval : Option IntervalCtx
  cameraOn : Bool
  pending : List PendingCall
  issuedCount : Nat
  saves : List SaveReq
  onCompleteCount : Nat
  unmounted : Bool
deriving DecidableEq, Repr

/-- Component state at mount (the `useState` initial values,
LiveSession.tsx:131-143), with `lastActivityTime = Date.now()` at mount. -/
def initState (now : Nat) : OrchState :=
  { isActive := false
    reps := 0
    feedback := []
    accuracy := 0
    error := ""
    drawingData := none
    analysisSide := Side.auto
    setsCompleted := 0
    showCompletionModal := false
    lastActivityTime := now
    sessionState := initialSessionState
    interval := none
    cameraOn := false
    pending := []
    issuedCount := 0
    saves := []
    onCompleteCount := 0
    unmounted := false }

/-- `PAUSE_TIMEOUT_MS = 5000` (LiveSession.tsx:144). -/
def PAUSE_TIMEOUT_MS : Nat := 5000

/-- `saveSessionResult(finalReps, finalAccuracy, isAutoSave)`
(LiveSession.tsx:190-204): returns the POST request it issues, or `none`
when it early-returns.  `!user?.id` is falsy when there is no user or the id
is empty; `isAutoSave` is accepted but never used by the body.  Failures of
the POST are only logged (LiveSession.tsx:199-203), so the request record is
the entire observable effect. -/
def saveSessionResult (user : Option UserRec) (exercise : Exercise)
    (finalReps : Nat) (finalAccuracy : ℚ) (_isAutoSave : Bool) : Option SaveReq :=
  match user with
  | none => none
  | some u =>
    if u.id = "" then none
    else if finalReps = 0 then none
    else some { user_id := u.id
                exercise_name := exercise.name
                reps_completed := finalReps
                accuracy_score := finalAccuracy }

/-- `stopSession(shouldSave, shouldCompletePage)` (LiveSession.tsx:241-251):
clears the sampling interval, stops all camera tracks, optionally fires the
(unawaited) save using `sessionStateRef.current.reps` and the current
`accuracy`, resets the session ref and invokes `onComplete()` when
`shouldCompletePage`, and always clears the overlay and leaves Active. -/
def stopSession (cfg : Config) (s : OrchState)
    (shouldSave shouldCompletePage : Bool) : OrchState :=
  { s with
    interval := none
    cameraOn := false
    saves := s.saves ++
      (if shouldSave then
        (saveSessionResult cfg.user cfg.exercise s.sessionState.reps s.accuracy
          shouldCompletePage).toList
       else [])
    sessionState := if shouldCompletePage then initialSessionState else s.sessionState
    drawingData := none
    isActive := false
    onCompleteCount := s.onCompleteCount + (if shouldCompletePage then 1 else 0) }

/-- The success branch of `startCamera` (LiveSession.tsx:255-261): attach the
stream, enter Active, clear the error, stamp activity, reset the session ref
and the reps/feedback hooks, and create the 500 ms sampling interval.  The
interval closure captures `capturedSide` — the `analysisSide` of the render
whose `startCamera` function object ran — and `showCompletionModal = false`
(the button paths that reach `startCamera` only render while the modal is
hidden). -/
def startCameraSuccess (s : OrchState) (now : Nat) (capturedSide : Side) : OrchState :=
  { s with
    cameraOn := true
    isActive := true
    error := ""
    lastActivityTime := now
    sessionState := initialSessionState
    reps := 0
    feedback := []
    interval := some { side := capturedSide, modal := false } }

/-- The catch branch of `startCamera` (LiveSession.tsx:262): permission or
device failure only surfaces an error message; the session stays Idle. -/
def startCameraFailure (s : OrchState) : OrchState :=
  { s with error := "Failed to access camera. Please grant camera permissions." }

/-- The `previous_state` payload of a tick: the current
`sessionStateRef.current` spread with `analysis_side` replaced by the
captured selector (`null` when `'auto'`), LiveSession.tsx:215-216. -/
def mkCall (s : OrchState) (ctx : IntervalCtx) : PendingCall :=
  { sentState := { s.sessionState with analysis_side := sideToSent ctx.side }
    ctxSide := ctx.side }

/-- The synchronous prefix of `captureAndAnalyze` (LiveSession.tsx:207-222):
the guard on the refs and the captured `showCompletionModal`, frame
rasterization, and issuing the fetch.  On issue, the call joins the
in-flight set; its response is handled later by `applyAnalysisResponse` or
`analysisCatch`.  The code does not guard against an already-pending call:
ticks fire every 500 ms regardless. -/
def captureTick (s : OrchState) (ctx : IntervalCtx) : OrchState :=
  if ctx.modal then s
  else
    { s with
      pending := s.pending ++ [mkCall s ctx]
      issuedCount := s.issuedCount + 1 }

/-- The success continuation of `captureAndAnalyze` (LiveSession.tsx:227-237):
stamp activity, replace the session ref wholesale with the returned state,
adopt a server-resolved side when the captured selector was `'auto'`, update
reps/feedback/accuracy, rebuild DrawingData, and — when the returned reps
reach the target — run `stopSession(false, false)`.  Note that nothing here
re-checks whether the session was stopped or the modal shown while the call
was in flight, and no sequence number orders overlapping calls. -/
def applyAnalysisResponse (cfg : Config) (s : OrchState) (c : PendingCall)
    (resp : AnalyzeResp) (now : Nat) : OrchState :=
  let applied : OrchState :=
    { s with
      pending := s.pending.erase c
      lastActivityTime := now
      sessionState := resp.state
      analysisSide :=
        match resp.state.analysis_side with
        | some sd => if c.ctxSide = Side.auto then sideOfLR sd else s.analysisSide
        | none => s.analysisSide
      reps := resp.reps
      feedback := resp.feedback
      accuracy := resp.accuracy_score
      drawingData := some
        { landmarks := resp.drawing_landmarks
          angleData := some
            { angle := resp.current_angle
              A := resp.angle_A, B := resp.angle_B, C := resp.angle_C } } }
  if resp.reps ≥ cfg.exercise.target_reps then stopSession cfg applied false false
  else applied

/-- The catch branch of `captureAndAnalyze` (LiveSession.tsx:237): a failed
analysis call logs, surfaces a transient error message and clears the
overlay; it touches neither the interval, the camera, nor `isActive`. -/
def analysisCatch (s : OrchState) (c : PendingCall) : OrchState :=
  { s with
    pending := s.pending.erase c
    error := "Connection or Analysis Error."
    drawingData := none }

/-- One tick of the pause/inactivity watchdog (LiveSession.tsx:166-186).  The
interval only exists while `isActive` (the effect clears it otherwise), and
the effect re-runs on every change of its dependencies, so the values read
here are current.  On timeout with progress and sets remaining it forces
`stopSession(true, true)`. -/
def pauseCheckTick (cfg : Config) (s : OrchState) (now : Nat) : OrchState :=
  if now - s.lastActivityTime > PAUSE_TIMEOUT_MS ∧ s.reps > 0 ∧
      s.setsCompleted < cfg.exercise.sets then
    stopSession cfg s true true
  else s

/-- `handleSetCompletion` (LiveSession.tsx:266-281), reachable through the
"Start Next Set" button, which renders only while
`reps ≥ target_reps ∧ setsCompleted < sets` on the non-modal page: save the
finished set with the current reps/accuracy, then either show the completion
modal (final set: `stopSession(false,false)` first) or reset for the next
set and restart the camera.  `camOk` abstracts the `getUserMedia` outcome of
the restarted `startCamera`. -/
def handleSetCompletion (cfg : Config) (s : OrchState) (camOk : Bool) (now : Nat) :
    OrchState :=
  let saved :=
    { s with saves := s.saves ++
        (saveSessionResult cfg.user cfg.exercise s.reps s.accuracy false).toList }
  let nextSetsCompleted := saved.setsCompleted + 1
  if nextSetsCompleted ≥ cfg.exercise.sets then
    { stopSession cfg saved false false with
        setsCompleted := nextSetsCompleted
        showCompletionModal := true }
  else
    let reset :=
      { saved with
        setsCompleted := nextSetsCompleted
        reps := 0
        feedback := []
        sessionState := initialSessionState }
    if camOk then startCameraSuccess reset now reset.analysisSide
    else startCameraFailure reset

/-- `handleSideChange(side)` (LiveSession.tsx:294-300): update the selector;
if Active, `stopSession(false, false)` and `setTimeout(startCamera, 500)`.
The scheduled `startCamera` is the function object of the render in which
the click was handled, so the interval it creates captures the PRE-switch
`analysisSide` (see the file header); the model passes that `oldSide` into
`startCameraSuccess` as the captured closure value. -/
def handleSideChange (cfg : Config) (s : OrchState) (side : Side) (camOk : Bool)
    (now : Nat) : OrchState :=
  let oldSide := s.analysisSide
  let switched := { s with analysisSide := side }
  if switched.isActive then
    let stopped := stopSession cfg switched false false
    if camOk then startCameraSuccess stopped now oldSide
    else startCameraFailure stopped
  else switched

/-- Clicking "Return to Dashboard" on the completion modal
(LiveSession.tsx:354): invokes `onComplete()`, after which the parent swaps
the view and the unmount cleanup runs `stopSession(false, false)`
(LiveSession.tsx:337). -/
def returnFromModal (cfg : Config) (s : OrchState) : OrchState :=
  { stopSession cfg { s with onCompleteCount := s.onCompleteCount + 1 } false false with
      unmounted := true }

/-- The events that drive one mounted LiveSession component: timer ticks,
network completions, and the user interactions the rendered page offers. -/
inductive Ev where
  | startCam (ok : Bool) (now : Nat)
  | tick
  | respOk (c : PendingCall) (resp : AnalyzeResp) (now : Nat)
  | respFail (c : PendingCall)
  | watchdog (now : Nat)
  | setComplete (camOk : Bool) (now : Nat)
  | endSession
  | stopAndSave
  | sideChange (side : Side) (camOk : Bool) (now : Nat)
  | modalReturn
deriving DecidableEq, Repr

/-- The labelled transition relation of the component.  Each constructor
pairs an event with its enabling condition, read off the JSX render
structure and the effects:

* `startCam`: the "Start Camera" button renders only on the non-modal page
  while `!isActive` (LiveSession.tsx:395-405);
* `tick`: the sampling interval must be live (LiveSession.tsx:261,242);
* `respOk`/`respFail`: some issued analyze call completes;
* `watchdog`: the 1 s pause-check interval exists only while `isActive`
  (LiveSession.tsx:166-186);
* `setComplete`: the "Start Next Set" button renders only while
  `reps ≥ target_reps ∧ setsCompleted < sets` on the non-modal page
  (LiveSession.tsx:500-508);
* `endSession`: the "End Session" button, non-modal page
  (LiveSession.tsx:376);
* `stopAndSave`: the "Stop Session & Save" button renders while `isActive`
  (LiveSession.tsx:435-442);
* `sideChange`: the side toggle, non-modal page (LiveSession.tsx:304-326);
* `modalReturn`: the "Return to Dashboard" button of the completion modal
  (LiveSession.tsx:354).

All events require the component to still be mounted. -/
inductive Step (cfg : Config) : OrchState → Ev → OrchState → Prop where
  | startCamOk (s : OrchState) (now : Nat)
      (hm : s.unmounted = false) (hmod : s.showCompletionModal = false)
      (hact : s.isActive = false) :
      Step cfg s (Ev.startCam true now) (startCameraSuccess s now s.analysisSide)
  | startCamFail (s : OrchState) (now : Nat)
      (hm : s.unmounted = false) (hmod : s.showCompletionModal = false)
      (hact : s.isActive = false) :
      Step cfg s (Ev.startCam false now) (startCameraFailure s)
  | tick (s : OrchState) (ctx : IntervalCtx)
      (hm : s.unmounted = false) (hint : s.interval = some ctx) :
      Step cfg s Ev.tick (captureTick s ctx)
  | respOk (s : OrchState) (c : PendingCall) (resp : AnalyzeResp) (now : Nat)
      (hm : s.unmounted = false) (hc : c ∈ s.pending) :
      Step cfg s (Ev.respOk c resp now) (applyAnalysisResponse cfg s c resp now)
  | respFail (s : OrchState) (c : PendingCall)
      (hm : s.unmounted = false) (hc : c ∈ s.pending) :
      Step cfg s (Ev.respFail c) (analysisCatch s c)
  | watchdog (s : OrchState) (now : Nat)
      (hm : s.unmounted = false) (hact : s.isActive = true) :
      Step cfg s (Ev.watchdog now) (pauseCheckTick cfg s now)
  | setComplete (s : OrchState) (camOk : Bool) (now : Nat)
      (hm : s.unmounted = false) (hmod : s.showCompletionModal = false)
      (hreps : s.reps ≥ cfg.exercise.target_reps)
      (hsets : s.setsCompleted < cfg.exercise.sets) :
      Step cfg s (Ev.setComplete camOk now) (handleSetCompletion cfg s camOk now)
  | endSession (s : OrchState)
      (hm : s.unmounted = false) (hmod : s.showCompletionModal = false) :
      Step cfg s Ev.endSession (stopSession cfg s false true)
  | stopAndSave (s : OrchState)
      (hm : s.unmounted = false) (hmod : s.showCompletionModal = false)
      (hact : s.isActive = true) :
      Step cfg s Ev.stopAndSave (stopSession cfg s true true)
  | sideChange (s : OrchState) (side : Side) (camOk : Bool) (now : Nat)
      (hm : s.unmounted = false) (hmod : s.showCompletionModal = false) :
      Step cfg s (Ev.sideChange side camOk now) (handleSideChange cfg s side camOk now)
  | modalReturn (s : OrchState)
      (hm : s.unmounted = false) (hmod : s.showCompletionModal = true) :
      Step cfg s Ev.modalReturn (returnFromModal cfg s)

/-- A finite execution: a list of events joining a start state to an end
state through `Step`. -/
inductive Trace (cfg : Config) : OrchState → List Ev → OrchState → Prop where
  | nil (s : OrchState) : Trace cfg s [] s
  | cons {s s' s'' : OrchState} {e : Ev} {l : List Ev}
      (h : Step cfg s e s') (h' : Trace cfg s' l s'') : Trace cfg s (e :: l) s''

/-- A state of a session run: produced from some mount time by some finite
sequence of events. -/
def Reachable (cfg : Config) (s : OrchState) : Prop :=
  ∃ now l, Trace cfg (initState now) l s

/-- The fixed anatomical adjacency list POSE_CONNECTIONS
(LiveSession.tsx:46-49). -/
def POSE_CONNECTIONS : List (Nat × Nat) :=
  [(11, 12), (11, 13), (13, 15), (15, 17), (15, 19), (15, 21), (17, 19),
   (12, 14), (14, 16), (16, 18), (16, 20), (16, 22),
   (11, 23), (12, 24), (23, 24), (23, 25), (24, 26), (25, 27), (26, 28),
   (27, 29), (28, 30), (29, 31), (30, 32), (27, 31), (28, 32)]

/-- `p?.visibility > 0.6` (LiveSession.tsx:68): an out-of-range index gives
`undefined`, and `undefined > 0.6` is false. -/
def optVisible : Option Landmark → Bool
  | some p => decide (p.visibility > 0.6)
  | none => false

/-- The skeleton edges `drawLandmarks` strokes (LiveSession.tsx:64-74): the
connections whose two endpoint landmarks both pass the 0.6 visibility
threshold. -/
def drawnEdges (d : DrawingData) : List (Nat × Nat) :=
  POSE_CONNECTIONS.filter fun ij =>
    optVisible (d.landmarks.get? ij.1) && optVisible (d.landmarks.get? ij.2)

/-- The joint markers `drawLandmarks` fills (LiveSession.tsx:78-84): the
landmarks passing the 0.6 visibility threshold. -/
def drawnJoints (d : DrawingData) : List Landmark :=
  d.landmarks.filter fun p => decide (p.visibility > 0.6)

/-- Whether the angle arc and label are drawn at all:
`if (angleData && angleData.angle > 0)` (LiveSession.tsx:87). -/
def angleDrawn (d : DrawingData) : Bool :=
  match d.angleData with
  | some a => decide (a.angle > 0)
  | none => false

/-- `Math.atan2(y, x)`, modelled as the argument of the complex number
`x + y i`, which lies in the interval `(-π, π]`. -/
noncomputable def atan2 (y x : ℝ) : ℝ := Complex.arg { re := x, im := y }

/-- `start = startAngle < 0 ? startAngle + 2π : startAngle`
(LiveSession.tsx:97-98). -/
noncomputable def normalizeAngle (θ : ℝ) : ℝ :=
  if θ < 0 then θ + 2 * Real.pi else θ

/-- Normalize both arc endpoints and apply the swap
`if (start > end) { [start, end] = [end, start] }` (LiveSession.tsx:97-100). -/
noncomputable def arcPair (startAngle endAngle : ℝ) : ℝ × ℝ :=
  let start := normalizeAngle startAngle
  let finish := normalizeAngle endAngle
  if start > finish then (finish, start) else (start, finish)

/-- The (start, end) directions of the angle arc that `ctx.arc` receives
(LiveSession.tsx:87-106), or `none` when no arc is drawn.  Coordinates are
scaled to canvas pixels first, then the two limb directions are taken with
`atan2` about the middle joint `B`. -/
noncomputable def arcAngles (d : DrawingData) (width height : ℚ) : Option (ℝ × ℝ) :=
  match d.angleData with
  | none => none
  | some a =>
    if a.angle > 0 then
      let centerX : ℝ := (a.B.x * width : ℚ)
      let centerY : ℝ := (a.B.y * height : ℚ)
      let pAx : ℝ := (a.A.x * width : ℚ)
      let pAy : ℝ := (a.A.y * height : ℚ)
      let pCx : ℝ := (a.C.x * width : ℚ)
      let pCy : ℝ := (a.C.y * height : ℚ)
      some (arcPair (atan2 (pAy - centerY) (pAx - centerX))
                    (atan2 (pCy - centerY) (pCx - centerX)))
    else none

/-- The awaiting-next-set configuration of the component: the page (not the
modal) is shown, sampling is not active, and the "Start Next Set" panel
renders because the rep target is met with sets remaining
(LiveSession.tsx:500-508). -/
def awaitingNextSet (cfg : Config) (s : OrchState) : Prop :=
  s.showCompletionModal = false ∧ s.isActive = false ∧
    s.reps ≥ cfg.exercise.target_reps ∧ s.setsCompleted < cfg.exercise.sets

/-- A minimal analyze response carrying a given rep count, accuracy and
stage; landmarks and angle data are irrelevant to the control flow. -/
def mkResp (reps : Nat) (acc : ℚ) (stage : String) : AnalyzeResp :=
  { reps := reps
    accuracy_score := acc
    feedback := []
    drawing_landmarks := []
    current_angle := 0
    angle_A := { x := 0, y := 0 }
    angle_B := { x := 0, y := 0 }
    angle_C := { x := 0, y := 0 }
    state := { reps := reps, stage := stage, angle := 0, last_rep_time := 0,
               analysis_side := none } }

/-- The interval context of a session started from the default `'auto'`
selector on a non-modal page. -/
def autoCtx : IntervalCtx := { side := Side.auto, modal := false }

/-- Scenario A (claims C1/C5): exercise of 10 reps x 2 sets, logged-in user. -/
def cfgA : Config :=
  { exercise := { name := "elbow flexion", description := "", target_reps := 10,
                  sets := 2, rest_seconds := 30 }
    user := some { id := "u1" } }

/-- Scenario A states: mount, camera start, two overlapping ticks. -/
def a0 : OrchState := initState 0

def a1 : OrchState := startCameraSuccess a0 0 Side.auto

def a2 : OrchState := captureTick a1 autoCtx

def a3 : OrchState := captureTick a2 autoCtx

/-- The analyze call both overlapping ticks of scenario A issued (they carry
identical payloads precisely because the code attaches no sequence number). -/
def aCall : PendingCall := mkCall a1 autoCtx

/-- Scenario A: the response of the SECOND (most recently issued) call
arrives first and is applied... -/
def a4 : OrchState := applyAnalysisResponse cfgA a3 aCall (mkResp 5 70 "up") 1

/-- ...then the stale response of the FIRST call arrives and is applied on
top of it, regressing reps from 5 to 4. -/
def a5 : OrchState := applyAnalysisResponse cfgA a4 aCall (mkResp 4 60 "down") 2

def a6 : OrchState := captureTick a5 autoCtx

/-- The call issued by the tick after the stale overwrite. -/
def aCall2 : PendingCall := mkCall a5 autoCtx

/-- Scenario A: the user ends the session (tear-down) while `aCall2` is
still in flight. -/
def a7 : OrchState := stopSession cfgA a6 false true

/-- Scenario A: the in-flight response resolves after tear-down and is still
applied to the torn-down state. -/
def a8 : OrchState := applyAnalysisResponse cfgA a7 aCall2 (mkResp 2 50 "down") 3

/-- Scenario B (claim C2): 1 rep x 2 sets, so the first applied response
meets the target with sets remaining. -/
def cfgB : Config :=
  { exercise := { name := "shoulder flexion", description := "", target_reps := 1,
                  sets := 2, rest_seconds := 20 }
    user := some { id := "u1" } }

def b0 : OrchState := initState 0

def b1 : OrchState := startCameraSuccess b0 0 Side.auto

def b2 : OrchState := captureTick b1 autoCtx

def bCall : PendingCall := mkCall b1 autoCtx

/-- Scenario B: the response reaching the rep target on set 1 of 2. -/
def b3 : OrchState := applyAnalysisResponse cfgB b2 bCall (mkResp 1 80 "up") 1

/-- Scenario M (claims C10/C3 witness): 2 reps x 1 set, logged-in user. -/
def cfgM : Config :=
  { exercise := { name := "knee flexion", description := "", target_reps := 2,
                  sets := 1, rest_seconds := 15 }
    user := some { id := "u1" } }

def m0 : OrchState := initState 0

def m1 : OrchState := startCameraSuccess m0 0 Side.auto

def m2 : OrchState := captureTick m1 autoCtx

def m3 : OrchState := captureTick m2 autoCtx

def mCall : PendingCall := mkCall m1 autoCtx

/-- Scenario M: the first response meets the target on the final set while
the second call is still in flight. -/
def m4 : OrchState := applyAnalysisResponse cfgM m3 mCall (mkResp 2 80 "up") 1

/-- Scenario M: the user clicks "Start Next Set" on the final set — the
completion modal appears with one analyze call still pending. -/
def m5 : OrchState := handleSetCompletion cfgM m4 true 2

/-- Scenario M: the in-flight response resolves after the completion modal
is shown and is still applied. -/
def m6 : OrchState := applyAnalysisResponse cfgM m5 mCall (mkResp 3 90 "up") 3

/-- Scenario T (claim C6): side changed left-to-right while Active. -/
def cfgT : Config :=
  { exercise := { name := "wrist flexion", description := "", target_reps := 10,
                  sets := 2, rest_seconds := 30 }
    user := some { id := "u1" } }

def t0 : OrchState := initState 0

/-- Scenario T: select "Left" while idle. -/
def t1 : OrchState := handleSideChange cfgT t0 Side.left true 0

def t2 : OrchState := startCameraSuccess t1 0 Side.left

/-- Scenario T: switch to "Right" while Active — the restarted interval
captures the pre-switch closure side `left`. -/
def t3 : OrchState := handleSideChange cfgT t2 Side.right true 5

/-- The interval context live after the switch: note the stale side. -/
def staleCtx : IntervalCtx := { side := Side.left, modal := false }

/-- Scenario T: the first tick after the switch. -/
def t4 : OrchState := captureTick t3 staleCtx

/-- A generic mid-set Active state (3 reps into set 2 of 3) used to witness
the watchdog and failure-path claims. -/
def wActive : OrchState :=
  { isActive := true
    reps := 3
    feedback := []
    accuracy := 80
    error := ""
    drawingData := some { landmarks := [], angleData := none }
    analysisSide := Side.auto
    setsCompleted := 1
    showCompletionModal := false
    lastActivityTime := 1000
    sessionState := { reps := 3, stage := "down", angle := 0, last_rep_time := 900,
                      analysis_side := none }
    interval := some autoCtx
    cameraOn := true
    pending := [mkCall (initState 0) autoCtx]
    issuedCount := 7
    saves := []
    onCompleteCount := 0
    unmounted := false }

/-- Watchdog/witness configuration: 10 reps x 3 sets, logged-in user. -/
def cfgW : Config :=
  { exercise := { name := "ankle dorsiflexion", description := "", target_reps := 10,
                  sets := 3, rest_seconds := 30 }
    user := some { id := "u1" } }

/-- A final-set awaiting state (1 rep x 1 set met) used to witness claim C3. -/
def cfgF : Config :=
  { exercise := { name := "shoulder abduction", description := "", target_reps := 1,
                  sets := 1, rest_seconds := 10 }
    user := some { id := "u1" } }

def fAwait : OrchState :=
  { isActive := false
    reps := 1
    feedback := []
    accuracy := 90
    error := ""
    drawingData := none
    analysisSide := Side.auto
    setsCompleted := 0
    showCompletionModal := false
    lastActivityTime := 1500
    sessionState := { reps := 1, stage := "up", angle := 0, last_rep_time := 1400,
                      analysis_side := none }
    interval := none
    cameraOn := false
    pending := []
    issuedCount := 3
    saves := []
    onCompleteCount := 0
    unmounted := false }

/-- A fully invisible landmark set with a degenerate angle, used to witness
claim C8. -/
def dInvisible : DrawingData :=
  { landmarks := [{ x := 0, y := 0, visibility := 1/2 },
                  { x := 1, y := 1, visibility := 0 },
                  { x := 1/2, y := 1/2, visibility := 59/100 }]
    angleData := some { angle := 0, A := { x := 0, y := 0 },
                        B := { x := 1/2, y := 1/2 }, C := { x := 1, y := 0 } } }

/-- `setsCompleted` moves only through `handleSetCompletion`, whose enabling
button requires `setsCompleted < sets`; every other handler leaves it
untouched, so one step preserves the upper bound. -/
theorem step_setsCompleted_le {cfg : Config} {s s' : OrchState} {e : Ev}
    (h : Step cfg s e s') (hle : s.setsCompleted ≤ cfg.exercise.sets) :
    s'.setsCompleted ≤ cfg.exercise.sets := by
  cases h <;>
    simp_all [startCameraSuccess, startCameraFailure, captureTick,
      applyAnalysisResponse, analysisCatch, pauseCheckTick, handleSetCompletion,
      handleSideChange, stopSession, returnFromModal] <;>
    split_ifs <;> simp_all <;> omega

/-- The bound `setsCompleted ≤ sets` propagates along any execution. -/
theorem trace_setsCompleted_le {cfg : Config} {s s' : OrchState} {l : List Ev}
    (h : Trace cfg s l s') (hle : s.setsCompleted ≤ cfg.exercise.sets) :
    s'.setsCompleted ≤ cfg.exercise.sets := by
  induction h with
  | nil _ => exact hle
  | cons hstep _ ih => exact ih (step_setsCompleted_le hstep hle)

/-- No event is enabled after unmount: every `Step` constructor carries
`unmounted = false`. -/
theorem trace_unmounted_fixed {cfg : Config} {s s' : OrchState} {l : List Ev}
    (h : Trace cfg s l s') (hu : s.unmounted = true) : s' = s := by
  induction h with
  | nil _ => rfl
  | cons hstep _ _ => cases hstep <;> simp_all

/-- Once the completion modal is up, no step hides it again: nothing ever
writes `showCompletionModal := false`. -/
theorem step_modal_persists {cfg : Config} {s s' : OrchState} {e : Ev}
    (h : Step cfg s e s') (hmod : s.showCompletionModal = true) :
    s'.showCompletionModal = true := by
  cases h <;>
    simp_all [startCameraSuccess, startCameraFailure, captureTick,
      applyAnalysisResponse, analysisCatch, pauseCheckTick, handleSetCompletion,
      handleSideChange, stopSession, returnFromModal] <;>
    split_ifs <;> simp_all

/-- One-step preservation of the completion-modal configuration: while the
modal is up the sampling interval stays cleared and the session inactive
(the modal page renders none of the buttons that could restart them). -/
theorem step_modal_idle {cfg : Config} {s s' : OrchState} {e : Ev}
    (h : Step cfg s e s')
    (hinv : s.showCompletionModal = true → s.interval = none ∧ s.isActive = false) :
    s'.showCompletionModal = true → s'.interval = none ∧ s'.isActive = false := by
  cases h <;>
    simp_all [startCameraSuccess, startCameraFailure, captureTick,
      applyAnalysisResponse, analysisCatch, pauseCheckTick, handleSetCompletion,
      handleSideChange, stopSession, returnFromModal] <;>
    split_ifs <;> simp_all

/-- Any property preserved by every step propagates along an execution. -/
theorem trace_preserves {cfg : Config} {P : OrchState → Prop}
    (hP : ∀ s e s', Step cfg s e s' → P s → P s')
    {s s' : OrchState} {l : List Ev} (h : Trace cfg s l s') (hs : P s) : P s' := by
  induction h with
  | nil _ => exact hs
  | cons hstep _ ih => exact ih (hP _ _ _ hstep hs)

/-- The modal-idle configuration holds in every reachable state: at mount
the modal is hidden, and `step_modal_idle` preserves the implication. -/
theorem reachable_modal_idle {cfg : Config} {s : OrchState}
    (h : Reachable cfg s) :
    s.showCompletionModal = true → s.interval = none ∧ s.isActive = false := by
  obtain ⟨now, l, htr⟩ := h
  exact trace_preserves (fun _ _ _ hst hp => step_modal_idle hst hp) htr
    (fun hfalse => by simp [initState] at hfalse)

/-- Request issuing happens only on a tick, and a tick needs a live
interval; with the interval cleared, no step grows `issuedCount`. -/
theorem step_issuedCount_frozen {cfg : Config} {s s' : OrchState} {e : Ev}
    (h : Step cfg s e s') (hint : s.interval = none) :
    s'.issuedCount = s.issuedCount := by
  cases h <;>
    simp_all [startCameraSuccess, startCameraFailure, captureTick,
      applyAnalysisResponse, analysisCatch, pauseCheckTick, handleSetCompletion,
      handleSideChange, stopSession, returnFromModal] <;>
    split_ifs <;> simp_all

/-- `0 ≤ setsCompleted ≤ sets` in every reachable state (the lower bound is
the type of the counter). -/
theorem reachable_setsCompleted_le {cfg : Config} {s : OrchState}
    (h : Reachable cfg s) : s.setsCompleted ≤ cfg.exercise.sets := by
  obtain ⟨now, l, htr⟩ := h
  exact trace_setsCompleted_le htr (by simp [initState])

/-- One step out of the completion-modal configuration: either the state
stays in that configuration with the `onComplete` count unchanged (a late
analyze response or failure being absorbed), or the step is the modal
dismissal, which bumps the count exactly once and unmounts. -/
theorem step_completed_box {cfg : Config} {s s' : OrchState} {e : Ev}
    (h : Step cfg s e s') (hmod : s.showCompletionModal = true)
    (hint : s.interval = none) (hact : s.isActive = false) :
    (s'.showCompletionModal = true ∧ s'.interval = none ∧ s'.isActive = false ∧
      s'.onCompleteCount = s.onCompleteCount ∧ s'.unmounted = false) ∨
    (s'.onCompleteCount = s.onCompleteCount + 1 ∧ s'.unmounted = true) := by
  cases h <;>
    simp_all [startCameraSuccess, startCameraFailure, captureTick,
      applyAnalysisResponse, analysisCatch, pauseCheckTick, handleSetCompletion,
      handleSideChange, stopSession, returnFromModal] <;>
    split_ifs <;> simp_all

/-- From the completion-modal configuration, every execution invokes the
`onComplete` collaborator at most once more, and exactly once when it ends
unmounted: the only count-bumping event still enabled is the single modal
dismissal. -/
theorem trace_completed_once {cfg : Config} {s s2 : OrchState} {l : List Ev}
    (h : Trace cfg s l s2) :
    s.showCompletionModal = true → s.interval = none → s.isActive = false →
    s.unmounted = false →
    (s2.onCompleteCount = s.onCompleteCount ∧ s2.unmounted = false ∧
      s2.showCompletionModal = true ∧ s2.interval = none ∧ s2.isActive = false) ∨
    (s2.onCompleteCount = s.onCompleteCount + 1 ∧ s2.unmounted = true) := by
  induction h with
  | nil s =>
    intro hmod hint hact hunm
    exact Or.inl ⟨rfl, hunm, hmod, hint, hact⟩
  | cons hstep htail ih =>
    intro hmod hint hact _
    rcases step_completed_box hstep hmod hint hact with
      ⟨hmod2, hint2, hact2, hcnt2, hunm2⟩ | ⟨hcnt2, hunm2⟩
    · rcases ih hmod2 hint2 hact2 hunm2 with ⟨h1, h2, h3, h4, h5⟩ | ⟨h1, h2⟩
      · exact Or.inl ⟨by rw [h1, hcnt2], h2, h3, h4, h5⟩
      · exact Or.inr ⟨by rw [h1, hcnt2], h2⟩
    · have := trace_unmounted_fixed htail hunm2
      subst this
      exact Or.inr ⟨hcnt2, hunm2⟩

/-- C1: the spec requires SessionState to be updated only from the most
recently issued analysis call, with stale, out-of-order, or post-teardown
responses discarded.  The code has no sequence stamping and never re-checks
after `await`, so this run of the embedded code exhibits both violations:
two overlapping calls are issued; the response of the later call (reps 5) is
applied first and the stale response of the earlier call (reps 4) then
overwrites it; later, a response that resolves after `stopSession` has torn
the session down (session ref reset to 0 reps) is still applied, leaving the
torn-down ref at 2 reps. -/
theorem C1_stale_response_applied :
    Trace cfgA a0
      [Ev.startCam true 0, Ev.tick, Ev.tick,
       Ev.respOk aCall (mkResp 5 70 "up") 1,
       Ev.respOk aCall (mkResp 4 60 "down") 2,
       Ev.tick, Ev.endSession,
       Ev.respOk aCall2 (mkResp 2 50 "down") 3] a8 ∧
    a4.reps = 5 ∧ a5.reps = 4 ∧ a5.sessionState.reps = 4 ∧
    a7.interval = none ∧ a7.cameraOn = false ∧ a7.sessionState.reps = 0 ∧
    a8.sessionState.reps = 2 ∧ a8.reps = 2 := by
  refine ⟨?_, ?_⟩
  · exact Trace.cons (Step.startCamOk a0 0 (by decide) (by decide) (by decide))
      (Trace.cons (Step.tick a1 autoCtx (by decide) (by decide))
       (Trace.cons (Step.tick a2 autoCtx (by decide) (by decide))
        (Trace.cons (Step.respOk a3 aCall (mkResp 5 70 "up") 1 (by decide) (by decide))
         (Trace.cons (Step.respOk a4 aCall (mkResp 4 60 "down") 2 (by decide) (by decide))
          (Trace.cons (Step.tick a5 autoCtx (by decide) (by decide))
           (Trace.cons (Step.endSession a6 (by decide) (by decide))
            (Trace.cons (Step.respOk a7 aCall2 (mkResp 2 50 "down") 3 (by decide) (by decide))
             (Trace.nil a8))))))))
  · decide

/-- The post-start state of scenario B with one call in flight is reachable. -/
theorem reach_b2 : Reachable cfgB b2 :=
  ⟨0, [Ev.startCam true 0, Ev.tick],
    Trace.cons (Step.startCamOk b0 0 (by decide) (by decide) (by decide))
      (Trace.cons (Step.tick b1 autoCtx (by decide) (by decide)) (Trace.nil b2))⟩

/-- C2: the claim as stated — an applied response meeting the rep target
with sets remaining moves the session to awaiting-next-set WITHOUT tearing
down the camera — is false: `captureAndAnalyze` reacts to the threshold
with `stopSession(false, false)` (LiveSession.tsx:236), which stops every
camera track.  Concretely, in reachable state `b2` (camera on, set 1 of 2)
the response with reps = target yields a state whose camera is off. -/
theorem C2_counterexample :
    ¬ (∀ (cfg : Config) (s : OrchState) (c : PendingCall) (resp : AnalyzeResp)
        (now : Nat) (s2 : OrchState),
        Reachable cfg s → s.showCompletionModal = false →
        s.setsCompleted < cfg.exercise.sets →
        resp.reps ≥ cfg.exercise.target_reps → s.cameraOn = true →
        Step cfg s (Ev.respOk c resp now) s2 →
        s2.cameraOn = true ∧ awaitingNextSet cfg s2) := by
  intro h
  have hstep : Step cfgB b2 (Ev.respOk bCall (mkResp 1 80 "up") 1) b3 :=
    Step.respOk b2 bCall (mkResp 1 80 "up") 1 (by decide) (by decide)
  have hres := h cfgB b2 bCall (mkResp 1 80 "up") 1 b3 reach_b2
    (by decide) (by decide) (by decide) (by decide) hstep
  exact absurd hres.1 (by decide)

/-- C2 (amended): whenever an applied analysis response brings reps up to
the target, the orchestrator stops the periodic sampling and enters the
awaiting-next-set state, but it tears down the camera stream in the process
(`stopSession(false, false)` stops the media tracks as well as the
interval); the decision is made purely client-side by comparing the
response rep count against `exercise.target_reps`. -/
theorem C2_threshold_stops_sampling (cfg : Config) (s s2 : OrchState)
    (c : PendingCall) (resp : AnalyzeResp) (now : Nat)
    (hmod : s.showCompletionModal = false)
    (hsets : s.setsCompleted < cfg.exercise.sets)
    (hreps : resp.reps ≥ cfg.exercise.target_reps)
    (hstep : Step cfg s (Ev.respOk c resp now) s2) :
    s2.interval = none ∧ s2.cameraOn = false ∧ awaitingNextSet cfg s2 ∧
    s2.reps = resp.reps ∧ s2.setsCompleted = s.setsCompleted := by
  cases hstep with
  | respOk s c resp hm hc =>
    simp only [applyAnalysisResponse, stopSession, if_pos hreps, awaitingNextSet]
    exact ⟨trivial, trivial, ⟨hmod, trivial, hreps, hsets⟩, trivial, trivial⟩

/-- C2 witness: the amended behaviour at the concrete scenario-B response. -/
theorem C2_threshold_stops_sampling_witness :
    b3.interval = none ∧ b3.cameraOn = false ∧ awaitingNextSet cfgB b3 := by
  have h := C2_threshold_stops_sampling cfgB b2 b3 bCall (mkResp 1 80 "up") 1
    (by decide) (by decide) (by decide)
    (Step.respOk b2 bCall (mkResp 1 80 "up") 1 (by decide) (by decide))
  exact ⟨h.1, h.2.1, h.2.2.1⟩

/-- C3: completing the final set (the "Start Next Set" click when the set
just finished equals `exercise.sets`) shows the terminal completion modal,
saves the finished set once with the current rep count and latest accuracy,
and the `onComplete` collaborator is invoked exactly once in every
continuation — namely by the single modal dismissal, which unmounts. -/
theorem C3_final_set_completes_once (cfg : Config) (s s2 : OrchState)
    (camOk : Bool) (now : Nat) (u : UserRec)
    (huser : cfg.user = some u) (hid : u.id ≠ "")
    (htgt : cfg.exercise.target_reps ≠ 0)
    (hfinal : s.setsCompleted + 1 = cfg.exercise.sets)
    (hstep : Step cfg s (Ev.setComplete camOk now) s2) :
    s2.showCompletionModal = true ∧ s2.setsCompleted = cfg.exercise.sets ∧
    s2.isActive = false ∧ s2.interval = none ∧
    s2.saves = s.saves ++
      [{ user_id := u.id, exercise_name := cfg.exercise.name,
         reps_completed := s.reps, accuracy_score := s.accuracy }] ∧
    s2.onCompleteCount = s.onCompleteCount ∧
    (∀ l s3, Trace cfg s2 l s3 →
      (s3.onCompleteCount = s.onCompleteCount ∧ s3.unmounted = false) ∨
      (s3.onCompleteCount = s.onCompleteCount + 1 ∧ s3.unmounted = true)) := by
  cases hstep with
  | setComplete s camOk hm hmod hreps hsets =>
    have hrep0 : s.reps ≠ 0 := by omega
    have hsave : saveSessionResult cfg.user cfg.exercise s.reps s.accuracy false =
        some { user_id := u.id, exercise_name := cfg.exercise.name,
               reps_completed := s.reps, accuracy_score := s.accuracy } := by
      simp [saveSessionResult, huser, hid, hrep0]
    have hge : s.setsCompleted + 1 ≥ cfg.exercise.sets := by omega
    have hfields : handleSetCompletion cfg s camOk now =
        { stopSession cfg
            { s with saves := s.saves ++
                (saveSessionResult cfg.user cfg.exercise s.reps s.accuracy false).toList }
            false false with
          setsCompleted := s.setsCompleted + 1
          showCompletionModal := true } := by
      simp [handleSetCompletion, if_pos hge]
    refine ⟨?_, ?_, ?_, ?_, ?_, ?_, ?_⟩
    · rw [hfields]
    · rw [hfields]; simpa using hfinal
    · rw [hfields]; simp [stopSession]
    · rw [hfields]; simp [stopSession]
    · rw [hfields]; simp [stopSession, hsave]
    · rw [hfields]; simp [stopSession]
    · intro l s3 htr
      have hbox := trace_completed_once htr
        (by rw [hfields]) (by rw [hfields]; simp [stopSession])
        (by rw [hfields]; simp [stopSession])
        (by rw [hfields]; simp [stopSession, hm])
      have hcnt : (handleSetCompletion cfg s camOk now).onCompleteCount =
          s.onCompleteCount := by rw [hfields]; simp [stopSession]
      rw [hcnt] at hbox
      rcases hbox with ⟨h1, h2, _⟩ | ⟨h1, h2⟩
      · exact Or.inl ⟨h1, h2⟩
      · exact Or.inr ⟨h1, h2⟩

/-- C3 witness: the final-set completion at the concrete awaiting state
`fAwait` (1 rep x 1 set, target met). -/
theorem C3_final_set_completes_once_witness :
    (handleSetCompletion cfgF fAwait true 2000).showCompletionModal = true ∧
    (handleSetCompletion cfgF fAwait true 2000).saves =
      [{ user_id := "u1", exercise_name := "shoulder abduction",
         reps_completed := 1, accuracy_score := 90 }] := by
  have h := C3_final_set_completes_once cfgF fAwait
    (handleSetCompletion cfgF fAwait true 2000) true 2000 { id := "u1" }
    rfl (by decide) (by decide) (by decide)
    (Step.setComplete fAwait true 2000 (by decide) (by decide) (by decide) (by decide))
  exact ⟨h.1, by simpa using h.2.2.2.2.1⟩

/-- C4: a watchdog tick is only ever enabled while Active (in particular
never during awaiting-next-set or after completion, which leave Active);
with `reps = 0` it changes nothing; and once the threshold is exceeded with
progress and sets remaining it performs the protective save-and-stop —
recording the auto-save request, tearing the session down, reporting
completion — after which no further watchdog tick is enabled, so the stop
fires exactly once. -/
theorem C4_watchdog_autosave (cfg : Config) (s s2 : OrchState) (now : Nat)
    (hstep : Step cfg s (Ev.watchdog now) s2) :
    s.isActive = true ∧
    (s.reps = 0 → s2 = s) ∧
    (now - s.lastActivityTime > PAUSE_TIMEOUT_MS → s.reps > 0 →
      s.setsCompleted < cfg.exercise.sets →
      s2.isActive = false ∧ s2.interval = none ∧ s2.cameraOn = false ∧
      s2.onCompleteCount = s.onCompleteCount + 1 ∧
      (∀ u, cfg.user = some u → u.id ≠ "" → s.sessionState.reps ≠ 0 →
        s2.saves = s.saves ++
          [{ user_id := u.id, exercise_name := cfg.exercise.name,
             reps_completed := s.sessionState.reps, accuracy_score := s.accuracy }]) ∧
      (∀ now2 s3, ¬ Step cfg s2 (Ev.watchdog now2) s3)) := by
  cases hstep with
  | watchdog s hm hact =>
    refine ⟨hact, ?_, ?_⟩
    · intro hz
      simp [pauseCheckTick, hz]
    · intro htime hreps hsets
      have hcond : now - s.lastActivityTime > PAUSE_TIMEOUT_MS ∧ s.reps > 0 ∧
          s.setsCompleted < cfg.exercise.sets := ⟨htime, hreps, hsets⟩
      have hfire : pauseCheckTick cfg s now = stopSession cfg s true true := by
        simp [pauseCheckTick, if_pos hcond]
      rw [hfire]
      refine ⟨by simp [stopSession], by simp [stopSession], by simp [stopSession],
        by simp [stopSession], ?_, ?_⟩
      · intro u huser hid hrep0
        simp [stopSession, saveSessionResult, huser, hid, hrep0]
      · intro now2 s3 hbad
        cases hbad with
        | watchdog _ hm2 hact2 => simp [stopSession] at hact2

/-- C4 witness: the watchdog fires at the concrete Active state `wActive`
once 7000 ms pass with 3 reps done and sets remaining. -/
theorem C4_watchdog_autosave_witness :
    7000 - wActive.lastActivityTime > PAUSE_TIMEOUT_MS ∧
    (pauseCheckTick cfgW wActive 7000).isActive = false ∧
    (pauseCheckTick cfgW wActive 7000).saves =
      [{ user_id := "u1", exercise_name := "ankle dorsiflexion",
         reps_completed := 3, accuracy_score := 80 }] := by
  have h := C4_watchdog_autosave cfgW wActive (pauseCheckTick cfgW wActive 7000) 7000
    (Step.watchdog wActive 7000 (by decide) (by decide))
  have h3 := h.2.2 (by decide) (by decide) (by decide)
  refine ⟨by decide, h3.1, ?_⟩
  have := h3.2.2.2.2.1 { id := "u1" } rfl (by decide) (by decide)
  simpa using this

/-- C5: in every reachable state, `0 ≤ setsCompleted ≤ exercise.sets`, and
every operation available in such a state preserves the bound.  The only
operation that grows the counter is `handleSetCompletion`, whose enabling
button requires `setsCompleted < sets`. -/
theorem C5_setsCompleted_bound (cfg : Config) (s : OrchState)
    (h : Reachable cfg s) :
    (0 ≤ s.setsCompleted ∧ s.setsCompleted ≤ cfg.exercise.sets) ∧
    (∀ e s2, Step cfg s e s2 →
      0 ≤ s2.setsCompleted ∧ s2.setsCompleted ≤ cfg.exercise.sets) :=
  ⟨⟨Nat.zero_le _, reachable_setsCompleted_le h⟩,
    fun _ _ hstep =>
      ⟨Nat.zero_le _, step_setsCompleted_le hstep (reachable_setsCompleted_le h)⟩⟩

/-- C5 witness: the bound at the mount state of scenario A. -/
theorem C5_setsCompleted_bound_witness :
    (initState 0).setsCompleted ≤ cfgA.exercise.sets :=
  (C5_setsCompleted_bound cfgA (initState 0) ⟨0, [], Trace.nil (initState 0)⟩).1.2

/-- C6: changing the side while Active does stop the session without an
auto-save and restarts capture fresh, but the restarted sampling interval
runs the `captureAndAnalyze` closure of the pre-switch render (the
`setTimeout(startCamera, 500)` callback is the old render's function
object), so the first post-switch analysis call still carries the STALE
`analysis_side`: after switching left-to-right, the UI shows `right` while
the issued call sends `left`.  This run of the embedded code exhibits it. -/
theorem C6_stale_side_sent :
    Trace cfgT t0
      [Ev.sideChange Side.left true 0, Ev.startCam true 0,
       Ev.sideChange Side.right true 5, Ev.tick] t4 ∧
    t3.saves = [] ∧ t3.interval = some staleCtx ∧ t3.cameraOn = true ∧
    t3.sessionState = initialSessionState ∧
    t4.analysisSide = Side.right ∧
    t4.pending.map (fun c => c.sentState.analysis_side) = [some SideLR.left] := by
  refine ⟨?_, ?_⟩
  · exact Trace.cons (Step.sideChange t0 Side.left true 0 (by decide) (by decide))
      (Trace.cons (Step.startCamOk t1 0 (by decide) (by decide) (by decide))
       (Trace.cons (Step.sideChange t2 Side.right true 5 (by decide) (by decide))
        (Trace.cons (Step.tick t3 staleCtx (by decide) (by decide))
         (Trace.nil t4))))
  · decide

/-- C7: a failed analysis call surfaces the recoverable error message,
clears the overlay data, and leaves the sampling interval, the camera, the
Active flag — and everything else about the session — untouched: one failed
analysis never stops the session. -/
theorem C7_failure_keeps_polling (cfg : Config) (s s2 : OrchState)
    (c : PendingCall) (hstep : Step cfg s (Ev.respFail c) s2) :
    s2.interval = s.interval ∧ s2.isActive = s.isActive ∧
    s2.cameraOn = s.cameraOn ∧ s2.error = "Connection or Analysis Error." ∧
    s2.drawingData = none ∧ s2.reps = s.reps ∧ s2.saves = s.saves ∧
    s2.onCompleteCount = s.onCompleteCount ∧
    s2.showCompletionModal = s.showCompletionModal := by
  cases hstep with
  | respFail s hm hc => simp [analysisCatch]

/-- C7 witness: a failure at the concrete Active state `wActive`. -/
theorem C7_failure_keeps_polling_witness :
    (analysisCatch wActive (mkCall (initState 0) autoCtx)).interval =
      wActive.interval ∧
    (analysisCatch wActive (mkCall (initState 0) autoCtx)).error =
      "Connection or Analysis Error." := by
  have h := C7_failure_keeps_polling cfgW wActive
    (analysisCatch wActive (mkCall (initState 0) autoCtx))
    (mkCall (initState 0) autoCtx)
    (Step.respFail wActive (mkCall (initState 0) autoCtx) (by decide) (by decide))
  exact ⟨h.1, h.2.2.2.1⟩

/-- `Math.atan2` yields a direction in `(-π, π]`. -/
theorem atan2_mem_Ioc (y x : ℝ) :
    atan2 y x ∈ Set.Ioc (-Real.pi) Real.pi :=
  Complex.arg_mem_Ioc _

/-- The `< 0 ? + 2π : ·` normalization maps `(-π, π]` (in fact all of
`[-π, π]`) into `[0, 2π)`. -/
theorem normalizeAngle_mem {θ : ℝ} (hθ : θ ∈ Set.Icc (-Real.pi) Real.pi) :
    normalizeAngle θ ∈ Set.Ico (0 : ℝ) (2 * Real.pi) := by
  obtain ⟨hlo, hhi⟩ := hθ
  have hpi := Real.pi_pos
  unfold normalizeAngle
  split_ifs with hneg
  · constructor <;> [linarith; linarith]
  · constructor <;> [linarith; linarith]

/-- Both components of the swapped pair are normalized and ordered. -/
theorem arcPair_mem {sθ eθ : ℝ}
    (hs : sθ ∈ Set.Icc (-Real.pi) Real.pi)
    (he : eθ ∈ Set.Icc (-Real.pi) Real.pi) :
    (arcPair sθ eθ).1 ∈ Set.Ico (0 : ℝ) (2 * Real.pi) ∧
    (arcPair sθ eθ).2 ∈ Set.Ico (0 : ℝ) (2 * Real.pi) ∧
    (arcPair sθ eθ).1 ≤ (arcPair sθ eθ).2 := by
  have h1 := normalizeAngle_mem hs
  have h2 := normalizeAngle_mem he
  unfold arcPair
  dsimp only
  split_ifs with hgt
  · exact ⟨h2, h1, le_of_lt hgt⟩
  · exact ⟨h1, h2, le_of_not_lt hgt⟩

/-- C8: the overlay renderer draws no skeleton edge and no joint marker
when every landmark is below the 0.6 visibility threshold; it draws no
angle arc or label when the angle value is 0; and whenever an arc is drawn,
both its direction endpoints are normalized into `[0, 2π)` with start and
end swapped when start exceeds end, so start ≤ end always holds. -/
theorem C8_overlay_renderer (d : DrawingData) (width height : ℚ) :
    ((∀ p ∈ d.landmarks, p.visibility < 0.6) →
      drawnEdges d = [] ∧ drawnJoints d = []) ∧
    (∀ a, d.angleData = some a → a.angle = 0 →
      angleDrawn d = false ∧ arcAngles d width height = none) ∧
    (∀ se, arcAngles d width height = some se →
      se.1 ∈ Set.Ico (0 : ℝ) (2 * Real.pi) ∧
      se.2 ∈ Set.Ico (0 : ℝ) (2 * Real.pi) ∧ se.1 ≤ se.2) := by
  refine ⟨?_, ?_, ?_⟩
  · intro hinv
    have hopt : ∀ n, optVisible (d.landmarks.get? n) = false := by
      intro n
      cases hg : d.landmarks.get? n with
      | none => simp [optVisible]
      | some p =>
        have hp : p ∈ d.landmarks := List.get?_mem hg
        have := hinv p hp
        simp only [optVisible, decide_eq_false_iff_not]
        intro hgt
        exact absurd this (not_lt.mpr (le_of_lt hgt))
    simp only [List.get?_eq_getElem?] at hopt
    refine ⟨?_, ?_⟩
    · unfold drawnEdges
      rw [List.filter_eq_nil_iff]
      intro ij _
      simp [hopt]
    · unfold drawnJoints
      rw [List.filter_eq_nil_iff]
      intro p hp
      have := hinv p hp
      simp only [decide_eq_true_eq, not_lt]
      exact le_of_lt this
  · intro a ha hz
    refine ⟨?_, ?_⟩
    · simp [angleDrawn, ha, hz]
    · simp [arcAngles, ha, hz]
  · intro se hse
    unfold arcAngles at hse
    cases hd : d.angleData with
    | none => rw [hd] at hse; cases hse
    | some a =>
      rw [hd] at hse
      dsimp only at hse
      by_cases hpos : a.angle > 0
      · rw [if_pos hpos] at hse
        injection hse with hse
        subst hse
        exact arcPair_mem
          (Set.mem_Icc_of_Ioc (atan2_mem_Ioc _ _))
          (Set.mem_Icc_of_Ioc (atan2_mem_Ioc _ _))
      · rw [if_neg hpos] at hse; cases hse

/-- C8 witness: the fully invisible landmark set with a degenerate angle
draws nothing. -/
theorem C8_overlay_renderer_witness :
    drawnEdges dInvisible = [] ∧ drawnJoints dInvisible = [] ∧
    angleDrawn dInvisible = false := by
  have h := C8_overlay_renderer dInvisible 640 480
  have hinv := h.1 (by intro p hp; fin_cases hp <;> norm_num [dInvisible])
  exact ⟨hinv.1, hinv.2, (h.2.1 _ rfl rfl).1⟩

/-- C9: `saveSessionResult` is a no-op — no POST is built — whenever there
is no authenticated-user identity (`!user?.id`) or the rep count is 0; in
all other cases it produces exactly the one POST body of
LiveSession.tsx:197; and `stopSession` tears the session down identically
whether or not the (unawaited, log-only) save is requested, so a save
failure can never block teardown. -/
theorem C9_saveSession_best_effort (cfg : Config) (reps : Nat) (acc : ℚ)
    (isAutoSave : Bool) :
    (cfg.user = none →
      saveSessionResult cfg.user cfg.exercise reps acc isAutoSave = none) ∧
    (∀ u, cfg.user = some u → u.id = "" →
      saveSessionResult cfg.user cfg.exercise reps acc isAutoSave = none) ∧
    (reps = 0 →
      saveSessionResult cfg.user cfg.exercise reps acc isAutoSave = none) ∧
    (∀ u, cfg.user = some u → u.id ≠ "" → reps ≠ 0 →
      saveSessionResult cfg.user cfg.exercise reps acc isAutoSave =
        some { user_id := u.id, exercise_name := cfg.exercise.name,
               reps_completed := reps, accuracy_score := acc }) ∧
    (∀ s b, (stopSession cfg s true b).isActive = (stopSession cfg s false b).isActive ∧
      (stopSession cfg s true b).interval = (stopSession cfg s false b).interval ∧
      (stopSession cfg s true b).cameraOn = (stopSession cfg s false b).cameraOn ∧
      (stopSession cfg s true b).drawingData = (stopSession cfg s false b).drawingData ∧
      (stopSession cfg s true b).sessionState = (stopSession cfg s false b).sessionState ∧
      (stopSession cfg s true b).onCompleteCount =
        (stopSession cfg s false b).onCompleteCount) := by
  refine ⟨?_, ?_, ?_, ?_, ?_⟩
  · intro h; simp [saveSessionResult, h]
  · intro u hu hid; simp [saveSessionResult, hu, hid]
  · intro h
    cases hu : cfg.user with
    | none => simp [saveSessionResult]
    | some u => simp [saveSessionResult, h]
  · intro u hu hid hr; simp [saveSessionResult, hu, hid, hr]
  · intro s b; simp [stopSession]

/-- C9 witness: with a logged-in user, saving 0 reps builds no request and
saving 3 reps builds exactly the expected POST body. -/
theorem C9_saveSession_best_effort_witness :
    saveSessionResult cfgA.user cfgA.exercise 0 50 false = none ∧
    saveSessionResult cfgA.user cfgA.exercise 3 50 false =
      some { user_id := "u1", exercise_name := "elbow flexion",
             reps_completed := 3, accuracy_score := 50 } := by
  have h := C9_saveSession_best_effort cfgA 0 50 false
  have h3 := C9_saveSession_best_effort cfgA 3 50 false
  exact ⟨h.2.2.1 rfl,
    by simpa using h3.2.2.2.1 { id := "u1" } rfl (by decide) (by decide)⟩

/-- The completion-modal state of scenario M — reached with one analyze call
still in flight — is reachable. -/
theorem reach_m5 : Reachable cfgM m5 :=
  ⟨0, [Ev.startCam true 0, Ev.tick, Ev.tick,
       Ev.respOk mCall (mkResp 2 80 "up") 1, Ev.setComplete true 2],
    Trace.cons (Step.startCamOk m0 0 (by decide) (by decide) (by decide))
      (Trace.cons (Step.tick m1 autoCtx (by decide) (by decide))
       (Trace.cons (Step.tick m2 autoCtx (by decide) (by decide))
        (Trace.cons (Step.respOk m3 mCall (mkResp 2 80 "up") 1 (by decide) (by decide))
         (Trace.cons (Step.setComplete m4 true 2 (by decide) (by decide) (by decide)
            (by decide))
          (Trace.nil m5)))))⟩

/-- C10: the claim as stated — once the completion modal is shown, no rep,
feedback, accuracy, or SessionState update can occur — is false: the guard
of `captureAndAnalyze` runs only before the fetch, so a call issued before
the modal appeared and still in flight is applied when it resolves.  In
reachable modal state `m5` (one call pending) the late response bumps reps
from 2 to 3. -/
theorem C10_counterexample :
    ¬ (∀ (cfg : Config) (s : OrchState), Reachable cfg s →
        s.showCompletionModal = true →
        ∀ (e : Ev) (s2 : OrchState), Step cfg s e s2 →
        s2.reps = s.reps ∧ s2.feedback = s.feedback ∧
        s2.accuracy = s.accuracy ∧ s2.sessionState = s.sessionState) := by
  intro h
  have hstep : Step cfgM m5 (Ev.respOk mCall (mkResp 3 90 "up") 3) m6 :=
    Step.respOk m5 mCall (mkResp 3 90 "up") 3 (by decide) (by decide)
  have hres := h cfgM m5 reach_m5 (by decide) _ m6 hstep
  exact absurd hres.1 (by decide)

/-- C10 (amended): once the completion modal is shown the sampling interval
is already cleared, so no tick can run and no NEW analysis request is ever
issued (and the modal never goes away again); however, responses to calls
issued before completion may still arrive and be applied. -/
theorem C10_modal_no_new_requests (cfg : Config) (s : OrchState)
    (h : Reachable cfg s) (hmod : s.showCompletionModal = true) :
    s.interval = none ∧
    (∀ e s2, Step cfg s e s2 →
      s2.issuedCount = s.issuedCount ∧ s2.showCompletionModal = true) := by
  have hidle := reachable_modal_idle h hmod
  exact ⟨hidle.1, fun e s2 hstep =>
    ⟨step_issuedCount_frozen hstep hidle.1, step_modal_persists hstep hmod⟩⟩

/-- C10 witness: the amended guarantee at the concrete reachable modal
state `m5`. -/
theorem C10_modal_no_new_requests_witness :
    m5.showCompletionModal = true ∧ m5.interval = none := by
  have h := C10_modal_no_new_requests cfgM m5 reach_m5 (by decide)
  exact ⟨by decide, h.1⟩
